import Mathlib

/-!
Shallow embedding of the pricing-catalog application in `src/main.py`:
a Flask app with a sqlite-backed group store and settings table, a
TTL-cached snapshot of an external Paradox table, a search endpoint and a
Word-document export.  Python dict records are modelled as association
lists of string-valued fields, the three sqlite tables as Lean lists, the
table-reader collaborator and the clock as explicit parameters, and the
rendered document as a list of observable blocks.
-/

/-- A catalog record: the Python dict built in `get_records`
(`record_dict = {field: getattr(record, field) for field in field_names}`),
modelled as an association list from field name to stringified value. -/
abbrev Record : Type := List (String × String)

/-- Python `record.get(key, default)` on a record dict. -/
def pget (r : Record) (key dflt : String) : String :=
  match r.lookup key with
  | some v => v
  | none => dflt

/-- Python truthiness of an optional integer, as applied to
`data.get('group_id')`: an absent key gives `None` (falsy) and the value
`0` is also falsy. -/
def pyTruthy : Option Int → Bool
  | none => false
  | some n => n != 0

/-- Python `value or default` for an optional string: `None` and the empty
string both fall through to the default (line 132: `get_setting('db_path')
or 'items.DB'`). -/
def pyOr (a : Option String) (dflt : String) : String :=
  match a with
  | none => dflt
  | some s => if s = "" then dflt else s

/-- The mutable state of the application: the three sqlite tables
(`groups`, `group_items`, `settings`) and the module-level cache globals
`TABLE_DATA` and `LAST_REFRESH`. -/
structure AppState where
  groups : List (Int × String)
  group_items : List (Int × Int)
  settings : List (String × String)
  table_data : Option (List Record × List String)
  last_refresh : Int

/-- An application state with empty tables and a cold cache. -/
def app0 : AppState :=
  { groups := [], group_items := [], settings := [], table_data := none, last_refresh := 0 }

/-- The sqlite `SELECT value FROM settings WHERE key = ?` of `get_setting`
(lines 48-53); the key is the primary key so the first hit is the row. -/
def get_setting (st : AppState) (key : String) : Option String :=
  st.settings.lookup key

/-- Upsert on the settings association list, mirroring the
`INSERT ... ON CONFLICT(key) DO UPDATE` of `set_setting`. -/
def upsert : List (String × String) → String → String → List (String × String)
  | [], k, v => [(k, v)]
  | (k0, v0) :: t, k, v => if k0 = k then (k, v) :: t else (k0, v0) :: upsert t k v

/-- The `set_setting` operation (lines 55-62). -/
def set_setting (st : AppState) (key value : String) : AppState :=
  { st with settings := upsert st.settings key value }

/-- Lexicographic codepoint order on character lists, the order sqlite's
memcmp text comparison induces (they coincide on this app's data). -/
def charListLe : List Char → List Char → Bool
  | [], _ => true
  | _ :: _, [] => false
  | a :: as, b :: bs => a.toNat < b.toNat || (a == b && charListLe as bs)

/-- The `ORDER BY name` comparison of `get_groups`. -/
def nameLe (a b : String) : Bool := charListLe a.data b.data

/-- Insertion into a name-sorted group list, used to model the
`ORDER BY name` of `get_groups`; group names are UNIQUE so ties are
impossible. -/
def insertByName (g : Int × String) : List (Int × String) → List (Int × String)
  | [] => [g]
  | h :: t => if nameLe g.2 h.2 then g :: h :: t else h :: insertByName g t

/-- The `get_groups` query (lines 64-68): all groups ordered by name. -/
def get_groups (st : AppState) : List (Int × String) :=
  st.groups.foldr insertByName []

/-- The `update_group` operation (lines 80-88): `UPDATE groups SET name = ?
WHERE id = ?`.  The id is the primary key, so at most one row matches; if no
row matches the UPDATE is a successful no-op (zero rows changed); if the
matched row would take a name held by a different group the UNIQUE
constraint raises `IntegrityError` and the function returns `False`. -/
def update_group (st : AppState) (group_id : Int) (new_name : String) : AppState × Bool :=
  if st.groups.all (fun r => r.1 != group_id) then (st, true)
  else if st.groups.any (fun r => r.2 == new_name && r.1 != group_id) then (st, false)
  else ({ st with groups := st.groups.map fun r =>
          if r.1 = group_id then (r.1, new_name) else r }, true)

/-- The PUT `/groups/<id>` handler `update_group_api` (lines 243-251):
a missing or falsy name is a 400, a `False` from `update_group` is reported
as a duplicate-name 400, and `True` as a 200 success. -/
def update_group_api (group_id : Int) (name : Option String) (st : AppState) :
    (Nat × String) × AppState :=
  match name with
  | none => ((400, "Group name is required"), st)
  | some n =>
    if n = "" then ((400, "Group name is required"), st)
    else
      match update_group st group_id n with
      | (st2, true) => ((200, "Group updated"), st2)
      | (st2, false) => ((400, "Group name already exists"), st2)

/-- The `add_item_to_group` operation (lines 97-105): the INSERT fails only
on the UNIQUE(group_id, item_id) constraint.  The schema of `init_db`
declares FOREIGN KEY(group_id) REFERENCES groups(id), but no connection
ever turns on sqlite foreign-key enforcement (it is off by default), so no
group-existence check takes place. -/
def add_item_to_group (st : AppState) (group_id item_id : Int) : AppState × Bool :=
  if (group_id, item_id) ∈ st.group_items then (st, false)
  else ({ st with group_items := st.group_items ++ [(group_id, item_id)] }, true)

/-- The POST `/groups/items` handler `add_item_to_group_api`
(lines 263-273): parameter presence is tested by truthiness of the value
(`if not group_id or not item_id`), then the store outcome is mapped to
201 or a duplicate 400. -/
def add_item_to_group_api (group_id item_id : Option Int) (st : AppState) :
    (Nat × String) × AppState :=
  if !(pyTruthy group_id) || !(pyTruthy item_id) then
    ((400, "Missing group_id or item_id"), st)
  else
    match group_id, item_id with
    | some g, some i =>
      match add_item_to_group st g i with
      | (st2, true) => ((201, "Item added to group"), st2)
      | (st2, false) => ((400, "Item already in group"), st2)
    | _, _ => ((400, "Missing group_id or item_id"), st)

/-- The `get_group_items` query (lines 113-117): member item ids of one
group in row order. -/
def get_group_items (st : AppState) (group_id : Int) : List Int :=
  (st.group_items.filter fun p => p.1 == group_id).map fun p => p.2

/-- A concrete store holding one group, id 1 named "A". -/
def c3_db : AppState := { app0 with groups := [(1, "A")] }

/-- A concrete store holding groups 1 "A" and 2 "B". -/
def c3_db2 : AppState := { app0 with groups := [(1, "A"), (2, "B")] }

/-- C3 counterexample: with only group 1 named "A" in the store, renaming
the unknown id 2 to "A" reports success and the API answers 200 "Group
updated" — the UPDATE matches no row, so there is neither a NotFound
failure nor even a DuplicateName failure, contradicting the claim. -/
theorem c3_unknown_id_reports_success :
    (update_group c3_db 2 "A").2 = true ∧
    (update_group_api 2 (some "A") c3_db).1 = (200, "Group updated") := by
  decide

/-- C3 (amended): `update_group` fails with the duplicate-name outcome
exactly when the target id exists and a different group already holds the
new name; when the id matches no group the UPDATE touches no row and the
call reports success with the store unchanged — the store has no NotFound
outcome at all. -/
theorem c3_update_group_amended (st : AppState) (gid : Int) (nm : String) :
    ((∀ r ∈ st.groups, r.1 ≠ gid) → update_group st gid nm = (st, true)) ∧
    ((∃ r ∈ st.groups, r.1 = gid) → (∃ r ∈ st.groups, r.2 = nm ∧ r.1 ≠ gid) →
      update_group st gid nm = (st, false)) ∧
    ((∃ r ∈ st.groups, r.1 = gid) → (∀ r ∈ st.groups, ¬(r.2 = nm ∧ r.1 ≠ gid)) →
      (update_group st gid nm).2 = true) := by
  refine ⟨fun hno => ?_, fun hyes hdup => ?_, fun hyes hnodup => ?_⟩
  · have h1 : st.groups.all (fun r => r.1 != gid) = true := by
      rw [List.all_eq_true]; intro r hr; simpa using hno r hr
    simp [update_group, h1]
  · have h1 : st.groups.all (fun r => r.1 != gid) = false := by
      rcases hyes with ⟨r, hr, hid⟩
      rw [List.all_eq_false]
      exact ⟨r, hr, by simp [hid]⟩
    have h2 : st.groups.any (fun r => r.2 == nm && r.1 != gid) = true := by
      rw [List.any_eq_true]
      rcases hdup with ⟨r, hr, hnm, hne⟩
      exact ⟨r, hr, by simp [hnm, hne]⟩
    simp [update_group, h1, h2]
  · have h2 : st.groups.any (fun r => r.2 == nm && r.1 != gid) = false := by
      rw [List.any_eq_false]
      intro r hr
      have := hnodup r hr
      simp only [Bool.and_eq_true, beq_iff_eq, bne_iff_ne, ne_eq]
      intro hcon
      exact this ⟨hcon.1, hcon.2⟩
    by_cases h1 : st.groups.all (fun r => r.1 != gid) = true
    · simp [update_group, h1]
    · simp [update_group, h1, h2]

/-- C3 witness: renaming group 2 to the name "A" already held by group 1
fails, through the amended theorem at a concrete store. -/
theorem c3_update_group_amended_witness :
    update_group c3_db2 2 "A" = (c3_db2, false) :=
  (c3_update_group_amended c3_db2 2 "A").2.1 (by decide) (by decide)

/-- C4: the membership table declares a FOREIGN KEY to `groups`, but since
no connection enables sqlite foreign-key enforcement, adding the pair
(5, 7) with no groups in the store at all succeeds, records the membership,
and the API answers 201 — the claim's NotFound outcome never happens. -/
theorem c4_missing_group_membership_recorded :
    (add_item_to_group app0 5 7).2 = true ∧
    (5, 7) ∈ (add_item_to_group app0 5 7).1.group_items ∧
    (add_item_to_group_api (some 5) (some 7) app0).1 = (201, "Item added to group") := by
  decide

/-- C10: a request carrying group_id = 0 or item_id = 0 is rejected with
the missing-parameter 400 even though both keys are present, because
presence is tested by truthiness and 0 is falsy. -/
theorem c10_zero_id_rejected (g i : Option Int) (st : AppState)
    (h : g = some 0 ∨ i = some 0) :
    (add_item_to_group_api g i st).1 = (400, "Missing group_id or item_id") := by
  rcases h with h | h
  · subst h
    simp [add_item_to_group_api, pyTruthy]
  · subst h
    cases g with
    | none => simp [add_item_to_group_api, pyTruthy]
    | some n => simp [add_item_to_group_api, pyTruthy]

/-- C10 witness: the concrete request (group_id 0, item_id 5) on the empty
store is answered with the missing-parameter 400, via the theorem. -/
theorem c10_zero_id_rejected_witness :
    (add_item_to_group_api (some 0) (some 5) app0).1 =
      (400, "Missing group_id or item_id") :=
  c10_zero_id_rejected (some 0) (some 5) app0 (Or.inl rfl)

/-- The external table-reader collaborator (`pypxlib.Table` plus the record
loop, lines 135-142): given the db path it either yields the record dicts
and field names or raises an exception carried as `.error`. -/
def Reader : Type := String → Except String (List Record × List String)

/-- The refresh path of `get_records` (lines 131-148): resolve the db path
from settings with an `or 'items.DB'` default, call the reader, commit the
new snapshot and timestamp on success, and on any exception return the pair
of empty lists without touching the cached globals.  The third component
records the path the reader was called with. -/
def get_records_refresh (reader : Reader) (now : Int) (st : AppState) :
    (List Record × List String) × AppState × Option String :=
  let db_path := pyOr (get_setting st "db_path") "items.DB"
  match reader db_path with
  | .ok rf => (rf, { st with table_data := some rf, last_refresh := now }, some db_path)
  | .error _ => (([], []), st, some db_path)

/-- One call of `get_records` (lines 124-148).  `now` is the value of
`time.time()`.  `TABLE_DATA` is a tuple whenever set, so its Python
truthiness test is exactly the `some` case; the result carries the value
returned to the caller, the new global state, and the path the reader was
invoked with (`none` when the fresh cache was served). -/
def get_records (reader : Reader) (now : Int) (st : AppState) :
    (List Record × List String) × AppState × Option String :=
  match st.table_data with
  | some td =>
    if now - st.last_refresh < 300 then (td, st, none)
    else get_records_refresh reader now st
  | none => get_records_refresh reader now st

/-- The POST `/settings` handler `api_update_settings` (lines 285-298):
only a missing (`None`) db_path is rejected; otherwise the setting is
stored and the cache globals are cleared (`TABLE_DATA = None`,
`LAST_REFRESH = 0`). -/
def api_update_settings (db_path : Option String) (st : AppState) :
    (Nat × String) × AppState :=
  match db_path with
  | none => ((400, "Missing db_path parameter"), st)
  | some p =>
    let st1 := set_setting st "db_path" p
    ((200, "Settings updated"), { st1 with table_data := none, last_refresh := 0 })

/-- A reader that always fails, as when the Paradox file is unreadable. -/
def failReader : Reader := fun _ => .error "Error reading table"

/-- One concrete snapshot: a single record with one field. -/
def snapA : List Record × List String := ([[("id", "1")]], ["id"])

/-- A cache state holding snapshot `snapA` loaded at time 0, with empty
sqlite tables. -/
def c1_state : AppState := { app0 with table_data := some snapA }

/-- C1 counterexample: at time 1000 the snapshot loaded at time 0 is older
than the 300-unit TTL, and with the reader failing, `get_records` returns
the pair of empty lists — not the retained last known-good snapshot
`snapA` as the claim requires. -/
theorem c1_stale_fallback_not_served :
    (get_records failReader 1000 c1_state).1 = ([], []) ∧
    (get_records failReader 1000 c1_state).1 ≠ snapA := by
  decide

/-- C1 (amended): whenever a refresh is attempted (no snapshot, or the
snapshot is older than the TTL) and the read fails, `get_records` returns
the empty snapshot regardless of any last known-good snapshot; the stale
snapshot stays in the cache state but is not served, and the reader's
exception is swallowed rather than propagated (the function still returns
a value). -/
theorem c1_refresh_failure_returns_empty (st : AppState) (now : Int)
    (reader : Reader) (e : String)
    (hstale : st.table_data = none ∨ ¬(now - st.last_refresh < 300))
    (hfail : reader (pyOr (get_setting st "db_path") "items.DB") = .error e) :
    (get_records reader now st).1 = ([], []) ∧
    (get_records reader now st).2.1 = st := by
  cases htd : st.table_data with
  | none => simp [get_records, htd, get_records_refresh, hfail]
  | some td =>
    rcases hstale with h | h
    · rw [htd] at h; exact absurd h (by simp)
    · simp [get_records, htd, h, get_records_refresh, hfail]

/-- C1 witness: the amended theorem applied at the concrete stale state and
failing reader. -/
theorem c1_refresh_failure_returns_empty_witness :
    ¬((1000 : Int) - c1_state.last_refresh < 300) ∧
    ((get_records failReader 1000 c1_state).1 = ([], []) ∧
      (get_records failReader 1000 c1_state).2.1 = c1_state) :=
  ⟨by decide,
    c1_refresh_failure_returns_empty c1_state 1000 failReader "Error reading table"
      (Or.inr (by decide)) rfl⟩

/-- Lookup after upsert finds the just-stored value. -/
theorem lookup_upsert (l : List (String × String)) (k v : String) :
    (upsert l k v).lookup k = some v := by
  induction l with
  | nil => simp [upsert, List.lookup]
  | cons h t ih =>
    by_cases hk : h.1 = k
    · simp [upsert, hk, List.lookup]
    · have hbeq : (k == h.1) = false := by
        rw [beq_eq_false_iff_ne]
        exact fun hke => hk hke.symm
      simp only [upsert]
      rw [if_neg hk]
      simp only [List.lookup, hbeq]
      exact ih

/-- C5: after any successful settings update the cache globals are cleared,
so the immediately following `get_records` cannot be served from the cache
— whatever the time and the previous snapshot age, it calls the table
reader, and does so with the freshly stored path (run through the
`or 'items.DB'` defaulting of line 132). -/
theorem c5_set_invalidates_cache (p : String) (st : AppState) (now : Int)
    (reader : Reader) :
    (get_records reader now (api_update_settings (some p) st).2).2.2 =
      some (pyOr (some p) "items.DB") := by
  show (get_records reader now
    { set_setting st "db_path" p with table_data := none, last_refresh := 0 }).2.2 = _
  simp only [get_records, get_records_refresh, get_setting, set_setting]
  rw [lookup_upsert]
  cases reader (pyOr (some p) "items.DB") <;> rfl

/-- Shared view of the cache used by the interleaving model of
`get_records`: the two module globals plus a count of table-reader
invocations. -/
structure FlightState where
  table_data : Option (List Record × List String)
  last_refresh : Int
  calls : Nat

/-- Control point of one thread executing `get_records`.  `start` is before
the freshness test of line 128; `reading` is about to run the reader
(lines 135-142); `loaded` holds the read result before the commit of
lines 143-144; `done` carries the value returned to the caller. -/
inductive FlightPhase where
  | start
  | reading
  | loaded (snap : List Record × List String)
  | done (ret : List Record × List String)

/-- One atomic step of a thread inside `get_records`.  The function takes
no lock, so the interpreter may switch threads between the freshness test,
the (I/O-bound) table read and the global assignment; each of those regions
is one step here. -/
def flight_step (reader : Reader) (path : String) (now : Int) :
    FlightPhase → FlightState → FlightPhase × FlightState
  | .start, sys =>
    (match sys.table_data with
     | some td => if now - sys.last_refresh < 300 then (.done td, sys) else (.reading, sys)
     | none => (.reading, sys))
  | .reading, sys =>
    (match reader path with
     | .ok rf => (.loaded rf, { sys with calls := sys.calls + 1 })
     | .error _ => (.done ([], []), { sys with calls := sys.calls + 1 }))
  | .loaded rf, sys => (.done rf, { sys with table_data := some rf, last_refresh := now })
  | .done r, sys => (.done r, sys)

/-- Two request-handling threads, each running `get_records`, over the
shared cache. -/
structure TwoThreads where
  t0 : FlightPhase
  t1 : FlightPhase
  sys : FlightState

/-- Run a schedule: each entry names the thread (false = thread 0) that
performs its next atomic step of `get_records`. -/
def flight_run (reader : Reader) (path : String) (now : Int) :
    List Bool → TwoThreads → TwoThreads
  | [], s => s
  | tid :: rest, s =>
    let s2 :=
      if tid then
        let p := flight_step reader path now s.t1 s.sys
        { s with t1 := p.1, sys := p.2 }
      else
        let p := flight_step reader path now s.t0 s.sys
        { s with t0 := p.1, sys := p.2 }
    flight_run reader path now rest s2

/-- A reader that always succeeds with snapshot `snapA`. -/
def okReader : Reader := fun _ => .ok snapA

/-- Both threads about to enter `get_records` with a cold cache (no
snapshot exists). -/
def flight_init : TwoThreads :=
  { t0 := .start, t1 := .start, sys := { table_data := none, last_refresh := 0, calls := 0 } }

/-- The overlapped schedule: both threads pass the freshness test before
either has read. -/
def flight_overlap : List Bool := [false, true, false, true, false, true]

/-- The sequential schedule: thread 0 completes its refresh before thread 1
runs its freshness test. -/
def flight_sequential : List Bool := [false, false, false, true]

/-- C2 counterexample: with no snapshot and the two callers interleaved
test-test-read-read, the table reader is invoked twice, not exactly once —
`get_records` has no single-flight coordination, and neither caller waits
for the other. -/
theorem c2_overlap_reads_twice :
    (flight_run okReader "items.DB" 1000 flight_overlap flight_init).sys.calls = 2 := by
  decide

/-- C2 (amended): how many reads two concurrent refresh triggers cause
depends on the interleaving: when thread 0 finishes before thread 1 tests
freshness the second caller is served from the new cache and the reader
runs once, but under the overlapped schedule each caller issues its own
independent read, and both then run to completion with two reader calls
recorded — the code has no single-flight discipline. -/
theorem c2_reads_depend_on_schedule :
    (flight_run okReader "items.DB" 1000 flight_sequential flight_init).sys.calls = 1 ∧
    (flight_run okReader "items.DB" 1000 flight_overlap flight_init).sys.calls = 2 := by
  decide

/-- Python `str.lower()` restricted to ASCII case mapping, applied
codepoint-wise like the runtime builtin; every string the claims exercise
is ASCII. -/
def pyLower (s : String) : String :=
  String.mk (s.data.map Char.toLower)

/-- The needle characters occur at the head of the haystack characters. -/
def headMatch : List Char → List Char → Bool
  | [], _ => true
  | _ :: _, [] => false
  | a :: as, b :: bs => a == b && headMatch as bs

/-- Python substring containment over character lists. -/
def charContains (needle : List Char) : List Char → Bool
  | [] => needle.isEmpty
  | b :: bs => headMatch needle (b :: bs) || charContains needle bs

/-- Python substring containment `needle in hay`. -/
def pyContains (hay needle : String) : Bool :=
  if needle = "" then true else charContains needle.data hay.data

/-- The searchable text of one record (line 184): the five fields joined by
single spaces, lowercased; missing fields contribute the empty string. -/
def search_text (r : Record) : String :=
  pyLower (pget r "id" "" ++ " " ++ pget r "Code" "" ++ " " ++ pget r "Item" "" ++ " "
    ++ pget r "ClientPrice" "" ++ " " ++ pget r "Vendor" "")

/-- Python list slicing `l[s:e]` with possibly negative bounds: a negative
index counts from the end, and both resolved indices are clamped to
[0, len]. -/
def pySlice {α : Type} (l : List α) (s e : Int) : List α :=
  let n : Int := l.length
  let sIdx : Nat := (if s < 0 then max 0 (n + s) else min s n).toNat
  let eIdx : Nat := (if e < 0 then max 0 (n + e) else min e n).toNat
  (l.take eIdx).drop sIdx

/-- The filtering stage of `search_items` (lines 179-189): an empty
(lowercased) query keeps every record in snapshot order, otherwise a record
matches when the lowercased query occurs in its searchable text. -/
def search_filtered (records : List Record) (q : String) : List Record :=
  let query := pyLower q
  if query ≠ "" then records.filter fun r => pyContains (search_text r) query
  else records

/-- The display projection of one record (lines 199-207). -/
def search_project (r : Record) : List (String × String) :=
  [("id", pget r "id" ""), ("Code", pget r "Code" ""), ("Item", pget r "Item" ""),
   ("ClientPrice", pget r "ClientPrice" ""), ("Vendor", pget r "Vendor" ""),
   ("VendorPrice", pget r "VendorPrice" "")]

/-- The JSON payload of the search endpoint (lines 209-215). -/
structure SearchResult where
  results : List (List (String × String))
  total : Nat
  page : Int
  per_page : Nat
  total_pages : Nat

/-- The GET `/search` handler `search_items` (lines 171-215) over a given
snapshot record list (the handler obtains it from `get_records`):
filtering, then the slice `filtered[(page-1)*50 : (page-1)*50 + 50]`, then
projection; `per_page` is fixed at 50. -/
def search_items (records : List Record) (q : String) (page : Int) : SearchResult :=
  let filtered := search_filtered records q
  { results := (pySlice filtered ((page - 1) * 50) ((page - 1) * 50 + 50)).map search_project
    total := filtered.length
    page := page
    per_page := 50
    total_pages := (filtered.length + 50 - 1) / 50 }

/-- Fifty-one identical records, enough to overflow one page. -/
def c9_records : List Record := List.replicate 51 [("id", "x")]

/-- C9 counterexample: with 51 records and an empty query, page -1 resolves
through Python's negative slice indices to `filtered[-100:-50]`, which is
the one-element slice holding the first record — a negative page returns a
non-empty result slice, not the empty slice the claim requires (the total
is still reported correctly). -/
theorem c9_negative_page_not_empty :
    (search_items c9_records "" (-1)).results.length = 1 ∧
    (search_items c9_records "" (-1)).total = 51 := by
  decide

/-- A slice whose end bound is 0 is empty. -/
theorem pySlice_end_zero {α : Type} (l : List α) (s : Int) : pySlice l s 0 = [] := by
  have h0 : (0 : Int) ≤ (l.length : Int) := Int.ofNat_nonneg _
  simp [pySlice, min_eq_left h0]

/-- A slice whose start bound is at least the length (and nonnegative) is
empty. -/
theorem pySlice_start_past_end {α : Type} (l : List α) (s e : Int)
    (hs : (l.length : Int) ≤ s) (h0 : 0 ≤ s) : pySlice l s e = [] := by
  simp only [pySlice]
  rw [if_neg (by omega), min_eq_right hs]
  apply List.drop_eq_nil_of_le
  rw [List.length_take]
  simp

/-- C9 (amended): page 0 and every page past the last (page greater than
`total_pages`) yield an empty result slice while the total stays the
correct match count; only negative pages escape this, being resolved by
Python's negative slice indexing, which can expose a non-empty slice as the
counterexample shows. -/
theorem c9_out_of_range_empty (records : List Record) (q : String) (p : Int)
    (h : p = 0 ∨ ((search_items records q p).total_pages : Int) < p) :
    (search_items records q p).results = [] ∧
    (search_items records q p).total = (search_filtered records q).length := by
  refine ⟨?_, rfl⟩
  simp only [search_items]
  rcases h with h | h
  · subst h
    have : ((0 : Int) - 1) * 50 + 50 = 0 := by norm_num
    rw [this, pySlice_end_zero]
    rfl
  · have hT : (search_items records q p).total_pages
        = ((search_filtered records q).length + 50 - 1) / 50 := rfl
    rw [hT] at h
    set n : Nat := (search_filtered records q).length with hn
    have hn50 : n ≤ ((n + 50 - 1) / 50) * 50 := by omega
    have hp1 : (((n + 50 - 1) / 50 : Nat) : Int) ≤ p - 1 := by omega
    have hcast : ((((n + 50 - 1) / 50) * 50 : Nat) : Int)
        = (((n + 50 - 1) / 50 : Nat) : Int) * 50 := by push_cast; ring
    have hstart : (n : Int) ≤ (p - 1) * 50 := by
      calc (n : Int) ≤ ((((n + 50 - 1) / 50) * 50 : Nat) : Int) := by exact_mod_cast hn50
        _ = (((n + 50 - 1) / 50 : Nat) : Int) * 50 := hcast
        _ ≤ (p - 1) * 50 := by
            apply mul_le_mul_of_nonneg_right hp1
            norm_num
    have h0 : (0 : Int) ≤ (p - 1) * 50 := le_trans (Int.ofNat_nonneg n) hstart
    rw [pySlice_start_past_end _ _ _ hstart h0]
    rfl

/-- C9 witness: page 3 of the 51-record snapshot (total_pages = 2) is empty
with the correct total, via the amended theorem. -/
theorem c9_out_of_range_empty_witness :
    (search_items c9_records "" 3).results = [] ∧
    (search_items c9_records "" 3).total = (search_filtered c9_records "").length :=
  c9_out_of_range_empty c9_records "" 3 (Or.inr (by decide))

/-- Left fold over decimal digit characters: value so far and digit count;
any non-digit character aborts the parse. -/
def decDigits (cs : List Char) : Option (Nat × Nat) :=
  cs.foldl
    (fun acc c =>
      match acc with
      | none => none
      | some (v, k) => if c.isDigit then some (v * 10 + (c.toNat - 48), k + 1) else none)
    (some (0, 0))

/-- An exact numeric value as a fraction: numerator and positive
denominator (a power of ten as produced by the decimal parse below).  Kept
unnormalized so every operation on it is plain integer arithmetic. -/
abbrev PyNum : Type := Int × Nat

/-- Python whitespace stripping of `float`, over the character list. -/
def pyStripChars (cs : List Char) : List Char :=
  ((cs.dropWhile Char.isWhitespace).reverse.dropWhile Char.isWhitespace).reverse

/-- Python `float(s)` on the plain decimal literals the program's data
exercises: optional surrounding whitespace, an optional sign, digits with
at most one decimal point and at least one digit.  Other accepted builtin
forms (exponents, infinities, underscores) lie outside the modelled domain
and map to `none` like any other unparsable string; the parsed value is
kept exact. -/
def pyFloat (s : String) : Option PyNum :=
  let cs := pyStripChars s.data
  let sp : Int × List Char :=
    match cs with
    | '-' :: t => (-1, t)
    | '+' :: t => (1, t)
    | _ => (1, cs)
  let ip := sp.2.takeWhile fun c => c != '.'
  match sp.2.dropWhile fun c => c != '.' with
  | [] =>
    match decDigits ip with
    | some (v, k) => if k = 0 then none else some (sp.1 * v, 1)
    | none => none
  | _ :: fp =>
    match decDigits ip, decDigits fp with
    | some (vi, ki), some (vf, kf) =>
      if ki + kf = 0 then none
      else some (sp.1 * ((vi : Int) * (10 ^ kf : Nat) + (vf : Int)), 10 ^ kf)
    | _, _ => none

/-- Python `f"{x:.4f}"` on the modelled exact price value: fixed four
fractional digits, scaling by ten thousand and taking the floor of
value + 1/2.  On every value the claims exercise (at most four decimal
digits) the scaling is exact, so no rounding-tie question arises. -/
def fmt4 (q : PyNum) : String :=
  let m : Int := Int.fdiv (q.1 * 20000 + (q.2 : Int)) (2 * (q.2 : Int))
  let a : Nat := m.natAbs
  let frac := toString (a % 10000)
  let body := toString (a / 10000) ++ "." ++
    String.mk (List.replicate (4 - frac.length) '0') ++ frac
  if m < 0 then "-" ++ body else body

/-- The value 0.0 assigned by the `except ValueError` branch. -/
def pyZero : PyNum := (0, 1)

/-- The price formatting of one export row (lines 407-418): both prices are
converted inside one `try` block, so a `ValueError` on either conversion
resets both to 0.0; missing fields default to the string "0.0000" before
conversion. -/
def price_cells (item : Record) : String × String :=
  match pyFloat (pget item "ClientPrice" "0.0000") with
  | none => (fmt4 pyZero, fmt4 pyZero)
  | some c =>
    match pyFloat (pget item "VendorPrice" "0.0000") with
    | none => (fmt4 pyZero, fmt4 pyZero)
    | some v => (fmt4 c, fmt4 v)

/-- The dict `records_dict = {str(r['id']): r for r in records}` of
line 312, as a lookup function: later records win on a key collision, and
membership ids are matched through `str(item_id)`. -/
def records_dict (records : List Record) (key : String) : Option Record :=
  records.reverse.find? fun r => pget r "id" "" == key

/-- One observable block of the exported document body: the bold group
header paragraph, the fixed table header row, or one item row with its
number, name and two formatted prices.  The constant title block, margins
and footer of the document are omitted as fixed text. -/
inductive Block where
  | groupHeader (text : String)
  | tableHeader
  | itemRow (num name clientPrice vendorPrice : String)
deriving DecidableEq

/-- The per-group body of `export_word` (lines 369-422): a group with an
empty member-id list is skipped outright (line 372), otherwise a header
paragraph numbered by `gIdx + 1` — the group's position in the full
`get_groups` list — and the table header row are emitted, and each member
id that resolves in the snapshot contributes one row numbered by its
position in the full member-id list; unresolved ids are skipped
(line 399). -/
def export_group_blocks (gIdx : Nat) (name : String) (item_ids : List Int)
    (rdict : String → Option Record) : List Block :=
  if item_ids = [] then []
  else
    Block.groupHeader (toString (gIdx + 1) ++ ". " ++ name) ::
    Block.tableHeader ::
    item_ids.enum.filterMap fun p =>
      (rdict (toString p.2)).map fun item =>
        Block.itemRow (toString (gIdx + 1) ++ "." ++ toString (p.1 + 1))
          (pget item "Item" "")
          (price_cells item).1 (price_cells item).2

/-- The group loop of `export_word` (line 369): every group of the full
list is enumerated, and each contributes its per-group blocks. -/
def export_body (groups_data : List (Int × String)) (items_of : Int → List Int)
    (rdict : String → Option Record) : List Block :=
  (groups_data.enum.map fun p =>
    export_group_blocks p.1 p.2.2 (items_of p.2.1) rdict).flatten

/-- The GET `/export_word` handler (lines 300-445) reduced to its
observable document body: a 404 failure (`.error`) when no groups exist,
otherwise the block sequence assembled from the name-ordered groups joined
against the one snapshot passed in (the handler reads it once from
`get_records`). -/
def export_word (st : AppState) (records : List Record) :
    Except String (List Block) :=
  let groups_data := get_groups st
  if groups_data = [] then .error "No groups found"
  else .ok (export_body groups_data (get_group_items st) (records_dict records))

/-- The row numbers rendered in a block sequence, in order. -/
def row_nums (bs : List Block) : List String :=
  bs.filterMap fun b =>
    match b with
    | Block.itemRow n _ _ _ => some n
    | _ => none

/-- The group header texts rendered in a block sequence, in order. -/
def header_texts (bs : List Block) : List String :=
  bs.filterMap fun b =>
    match b with
    | Block.groupHeader t => some t
    | _ => none

/-- A store with group "Empty" having no members and group "Ghost" having
one member id (99) that no snapshot record carries. -/
def c6_db : AppState :=
  { app0 with groups := [(1, "Empty"), (2, "Ghost")], group_items := [(2, 99)] }

/-- C6 counterexample: exporting `c6_db` against the empty snapshot applies
two different policies to zero-resolvable groups inside one document:
"Empty" (no member rows at all) is skipped outright, leaving no trace,
while "Ghost" (a member list whose only id is absent from the snapshot)
still renders its group header and the table header row. -/
theorem c6_inconsistent_zero_resolvable_policy :
    export_word c6_db [] = .ok [Block.groupHeader "2. Ghost", Block.tableHeader] ∧
    header_texts [Block.groupHeader "2. Ghost", Block.tableHeader] = ["2. Ghost"] := by
  exact ⟨rfl, by decide⟩

/-- The second component of an enumerated pair is a member of the
enumerated list. -/
theorem snd_mem_of_mem_enumFrom {α : Type} :
    ∀ (l : List α) (n : Nat) (p : Nat × α), p ∈ l.enumFrom n → p.2 ∈ l
  | [], _, _, h => by simp [List.enumFrom] at h
  | a :: t, n, p, h => by
    rw [show (a :: t).enumFrom n = (n, a) :: t.enumFrom (n + 1) from rfl] at h
    rcases List.mem_cons.mp h with h | h
    · simp [h]
    · exact List.mem_cons_of_mem a (snd_mem_of_mem_enumFrom t (n + 1) p h)

/-- C6 (amended): the export applies two different policies to groups with
zero resolvable members: a group whose member-id list is empty is skipped
entirely (no header, no table), while a group with member ids none of which
resolve in the snapshot still renders its group header and the table header
row, and nothing else. -/
theorem c6_zero_resolvable_two_policies (gIdx : Nat) (name : String)
    (item_ids : List Int) (rdict : String → Option Record) :
    (item_ids = [] → export_group_blocks gIdx name item_ids rdict = []) ∧
    (item_ids ≠ [] → (∀ i ∈ item_ids, rdict (toString i) = none) →
      export_group_blocks gIdx name item_ids rdict =
        [Block.groupHeader (toString (gIdx + 1) ++ ". " ++ name), Block.tableHeader]) := by
  constructor
  · intro h
    simp [export_group_blocks, h]
  · intro hne hall
    simp only [export_group_blocks, if_neg hne]
    have hrows : (item_ids.enum.filterMap fun p =>
        (rdict (toString p.2)).map fun item =>
          Block.itemRow (toString (gIdx + 1) ++ "." ++ toString (p.1 + 1))
            (pget item "Item" "")
            (price_cells item).1 (price_cells item).2) = [] := by
      rw [List.filterMap_eq_nil_iff]
      intro p hp
      rw [hall p.2 (snd_mem_of_mem_enumFrom item_ids 0 p hp)]
      rfl
    rw [hrows]

/-- C6 witness: the amended theorem at the concrete group "Ghost" (position
1 in the group list) whose only member id 99 resolves to nothing in the
empty snapshot. -/
theorem c6_zero_resolvable_two_policies_witness :
    export_group_blocks 1 "Ghost" [99] (records_dict []) =
      [Block.groupHeader "2. Ghost", Block.tableHeader] :=
  (c6_zero_resolvable_two_policies 1 "Ghost" [99] (records_dict [])).2
    (by decide) (by decide)

/-- A record whose ClientPrice does not parse while its VendorPrice is the
parsable "1.5". -/
def c7_item : Record :=
  [("id", "8"), ("Item", "Widget"), ("ClientPrice", "abc"), ("VendorPrice", "1.5")]

/-- C7 counterexample: in a row whose ClientPrice is the unparsable "abc"
and whose VendorPrice is "1.5", both cells render "0.0000" — although the
vendor price parses on its own to 1.5, which would render "1.5000", the
shared try block resets it together with the client price, so the two
prices are not handled independently. -/
theorem c7_one_bad_price_resets_both :
    price_cells c7_item = ("0.0000", "0.0000") ∧
    pyFloat (pget c7_item "VendorPrice" "0.0000") = some (15, 10) ∧
    fmt4 (15, 10) = "1.5000" ∧
    (price_cells c7_item).2 ≠ "1.5000" := by
  decide

/-- C7 (amended): the two price conversions sit in one shared try block:
when both prices parse, each cell independently renders its own value to
four fractional digits, but when either one is unparsable both cells render
"0.0000". -/
theorem c7_prices_parsed_jointly (item : Record) :
    (∀ c v, pyFloat (pget item "ClientPrice" "0.0000") = some c →
      pyFloat (pget item "VendorPrice" "0.0000") = some v →
      price_cells item = (fmt4 c, fmt4 v)) ∧
    (pyFloat (pget item "ClientPrice" "0.0000") = none ∨
      pyFloat (pget item "VendorPrice" "0.0000") = none →
      price_cells item = ("0.0000", "0.0000")) := by
  have hz : fmt4 pyZero = "0.0000" := by decide
  constructor
  · intro c v hc hv
    simp [price_cells, hc, hv]
  · intro h
    rcases h with h | h
    · simp [price_cells, h, hz]
    · cases hc : pyFloat (pget item "ClientPrice" "0.0000") with
      | none => simp [price_cells, hc, hz]
      | some c => simp [price_cells, hc, h, hz]

/-- A record with two parsable prices. -/
def c7_item2 : Record := [("ClientPrice", "1.5"), ("VendorPrice", "2")]

/-- C7 witness: with both prices parsable, each renders its own value, via
the amended theorem at a concrete record. -/
theorem c7_prices_parsed_jointly_witness :
    price_cells c7_item2 = (fmt4 (15, 10), fmt4 (2, 1)) :=
  (c7_prices_parsed_jointly c7_item2).1 (15, 10) (2, 1) (by decide) (by decide)

/-- A store with group "A" empty and group "B" holding member ids 7 and 8. -/
def c8_db : AppState :=
  { app0 with groups := [(1, "A"), (2, "B")], group_items := [(2, 7), (2, 8)] }

/-- A snapshot resolving only id 8. -/
def c8_records : List Record :=
  [[("id", "8"), ("Item", "Widget"), ("ClientPrice", "1.5"), ("VendorPrice", "2")]]

/-- C8 counterexample: group "A" is skipped (no members) and member 7 of
group "B" does not resolve, yet the rendered document numbers group "B" as
"2." and its single row as "2.2" — the skipped group and the skipped member
leave gaps ("1." and "2.1" never appear), because the numbering comes from
positions in the lists before the skipping steps. -/
theorem c8_numbering_has_gaps :
    export_word c8_db c8_records =
      .ok [Block.groupHeader "2. B", Block.tableHeader,
        Block.itemRow "2.2" "Widget" "1.5000" "2.0000"] ∧
    row_nums [Block.groupHeader "2. B", Block.tableHeader,
        Block.itemRow "2.2" "Widget" "1.5000" "2.0000"] = ["2.2"] ∧
    header_texts [Block.groupHeader "2. B", Block.tableHeader,
        Block.itemRow "2.2" "Widget" "1.5000" "2.0000"] = ["2. B"] := by
  exact ⟨rfl, by decide, by decide⟩

/-- Row numbers of the rendered member rows: exactly the resolvable
positions of the full member list, each numbered by its pre-skip index. -/
theorem row_nums_of_rows (gIdx : Nat) (rdict : String → Option Record) :
    ∀ l : List (Nat × Int),
      row_nums (l.filterMap fun p =>
        (rdict (toString p.2)).map fun item =>
          Block.itemRow (toString (gIdx + 1) ++ "." ++ toString (p.1 + 1))
            (pget item "Item" "")
            (price_cells item).1 (price_cells item).2) =
      (l.filter fun p => (rdict (toString p.2)).isSome).map
        fun p => toString (gIdx + 1) ++ "." ++ toString (p.1 + 1)
  | [] => rfl
  | p :: t => by
    cases h : rdict (toString p.2) with
    | none =>
      simp only [List.filterMap_cons, List.filter_cons, h, Option.map_none,
        Option.isSome_none, Bool.false_eq_true, if_false]
      exact row_nums_of_rows gIdx rdict t
    | some item =>
      simp only [List.filterMap_cons, List.filter_cons, h, Option.map_some',
        Option.isSome_some, if_true, List.map_cons]
      rw [show row_nums (Block.itemRow (toString (gIdx + 1) ++ "." ++ toString (p.1 + 1))
          (pget item "Item" "") (price_cells item).1 (price_cells item).2 :: _) =
        (toString (gIdx + 1) ++ "." ++ toString (p.1 + 1)) :: row_nums _ from rfl]
      rw [row_nums_of_rows gIdx rdict t]

/-- Row numbers of one group's rendered blocks. -/
theorem row_nums_export_group (gIdx : Nat) (name : String) (item_ids : List Int)
    (rdict : String → Option Record) :
    row_nums (export_group_blocks gIdx name item_ids rdict) =
      (item_ids.enum.filter fun p => (rdict (toString p.2)).isSome).map
        fun p => toString (gIdx + 1) ++ "." ++ toString (p.1 + 1) := by
  by_cases h : item_ids = []
  · subst h; rfl
  · simp only [export_group_blocks, if_neg h]
    rw [show row_nums (Block.groupHeader (toString (gIdx + 1) ++ ". " ++ name) ::
        Block.tableHeader :: (item_ids.enum.filterMap _)) =
      row_nums (item_ids.enum.filterMap _) from rfl]
    exact row_nums_of_rows gIdx rdict item_ids.enum

/-- Header texts distribute over block concatenation. -/
theorem header_texts_append (a b : List Block) :
    header_texts (a ++ b) = header_texts a ++ header_texts b :=
  List.filterMap_append a b _

/-- Item rows contribute no group header text. -/
theorem header_texts_rows_nil (gIdx : Nat) (rdict : String → Option Record) :
    ∀ l : List (Nat × Int),
      header_texts (l.filterMap fun p =>
        (rdict (toString p.2)).map fun item =>
          Block.itemRow (toString (gIdx + 1) ++ "." ++ toString (p.1 + 1))
            (pget item "Item" "")
            (price_cells item).1 (price_cells item).2) = []
  | [] => rfl
  | p :: t => by
    cases h : rdict (toString p.2) with
    | none =>
      simp only [List.filterMap_cons, h, Option.map_none]
      exact header_texts_rows_nil gIdx rdict t
    | some item =>
      simp only [List.filterMap_cons, h, Option.map_some']
      rw [show header_texts (Block.itemRow _ _ _ _ :: _) = header_texts _ from rfl]
      exact header_texts_rows_nil gIdx rdict t

/-- The header texts of one group's blocks: the numbered header when the
member-id list is nonempty, nothing otherwise. -/
theorem header_texts_export_group (gIdx : Nat) (name : String)
    (item_ids : List Int) (rdict : String → Option Record) :
    header_texts (export_group_blocks gIdx name item_ids rdict) =
      if item_ids = [] then [] else [toString (gIdx + 1) ++ ". " ++ name] := by
  by_cases h : item_ids = []
  · simp [export_group_blocks, h, header_texts]
  · simp only [export_group_blocks, if_neg h]
    rw [show header_texts (Block.groupHeader (toString (gIdx + 1) ++ ". " ++ name) ::
        Block.tableHeader :: (item_ids.enum.filterMap _)) =
      (toString (gIdx + 1) ++ ". " ++ name) :: header_texts (item_ids.enum.filterMap _)
      from rfl]
    rw [header_texts_rows_nil gIdx rdict item_ids.enum]

/-- The header texts of the whole body, generalized over the enumeration
start: each group is numbered by its position in the full group list, and
only groups with a nonempty member list appear. -/
theorem header_texts_export_body_from (items_of : Int → List Int)
    (rdict : String → Option Record) :
    ∀ (n : Nat) (gs : List (Int × String)),
      header_texts (((gs.enumFrom n).map fun p =>
          export_group_blocks p.1 p.2.2 (items_of p.2.1) rdict).flatten) =
      ((gs.enumFrom n).filter fun p => !(items_of p.2.1).isEmpty).map
        fun p => toString (p.1 + 1) ++ ". " ++ p.2.2
  | _, [] => rfl
  | n, g :: t => by
    rw [show (g :: t).enumFrom n = (n, g) :: t.enumFrom (n + 1) from rfl]
    simp only [List.map_cons, List.flatten_cons, List.filter_cons]
    rw [header_texts_append, header_texts_export_group]
    by_cases h : items_of g.1 = []
    · have hemp : ((items_of g.1).isEmpty : Bool) = true := by simp [h]
      simp only [h, if_true, hemp, Bool.not_true, Bool.false_eq_true, if_false,
        List.nil_append]
      exact header_texts_export_body_from items_of rdict (n + 1) t
    · have hemp : ((items_of g.1).isEmpty : Bool) = false := by
        simpa [List.isEmpty_iff] using h
      simp only [if_neg h, hemp, Bool.not_false, if_true, List.map_cons,
        List.singleton_append]
      rw [header_texts_export_body_from items_of rdict (n + 1) t]

/-- C8 (amended): the rendered numbering follows positions in the pre-skip
lists: the group headers that appear are numbered by each group's index in
the full name-ordered group list (groups with empty member lists vanish
without renumbering the rest), and the rows of a group are numbered by each
member's index in the full member-id list (unresolved ids vanish without
renumbering the rest) — so every skipping step leaves gaps in the rendered
numbering. -/
theorem c8_numbering_uses_preskip_positions (groups_data : List (Int × String))
    (items_of : Int → List Int) (rdict : String → Option Record)
    (gIdx : Nat) (name : String) (item_ids : List Int) :
    header_texts (export_body groups_data items_of rdict) =
      (groups_data.enum.filter fun p => !(items_of p.2.1).isEmpty).map
        (fun p => toString (p.1 + 1) ++ ". " ++ p.2.2) ∧
    row_nums (export_group_blocks gIdx name item_ids rdict) =
      (item_ids.enum.filter fun p => (rdict (toString p.2)).isSome).map
        (fun p => toString (gIdx + 1) ++ "." ++ toString (p.1 + 1)) :=
  ⟨header_texts_export_body_from items_of rdict 0 groups_data,
    row_nums_export_group gIdx name item_ids rdict⟩
